import Mathlib

/-!
Shallow embedding of the session-state core of the chatbot backend
(server with Supabase persistence plus the memory-only variant).

Conventions of the embedding:
  - The in-process cache (the `conversations` object keyed by session id)
    is an association list `Cache`.
  - The Durable Store (the Supabase `conversation` table keyed by
    `conversation_id`) is an association list `Store A`, where `A` is the
    type of a parsed analysis object (the code stores arbitrary parsed
    JSON; we keep it as a type parameter).
  - External collaborators (the OpenAI completion call, `JSON.parse`) are
    passed in as explicit oracles: a completion result
    `Except CompErr String` or a completion function on the transcript,
    and a parse function `String → Option A`.
  - JavaScript truthiness on request fields (`!message`) is modelled on
    `Option String`: `none` (absent) and `some ""` (empty) are falsy.
  - Timestamps (`new Date().toISOString()`) are opaque strings passed in
    as a `now` parameter.
-/

namespace Chatbot

inductive Role where
  | system
  | user
  | assistant
  deriving DecidableEq, Repr

/-- One conversation turn; `content` is a string (the normalized shape the
server pushes and the spec data model prescribes). -/
structure Message where
  role : Role
  content : String
  deriving DecidableEq, Repr

/-- One cached conversation, mirroring the object stored in the
`conversations` cache. -/
structure Conversation where
  messages : List Message
  createdAt : String
  lastActivity : String
  deriving DecidableEq, Repr

/-- One Durable Store row of the `conversation` table. -/
structure Row (A : Type) where
  conversation_id : String
  created_at : String
  messages : List Message
  lead_analysic : Option A
  lead_analyzed_at : Option String
  deriving DecidableEq, Repr

abbrev Cache := List (String × Conversation)

abbrev Store (A : Type) := List (String × Row A)

/-- Key lookup in an association list (object property read by key). -/
def getEntry {α : Type} (c : List (String × α)) (k : String) : Option α :=
  match c with
  | [] => none
  | (k2, v) :: rest => if k2 = k then some v else getEntry rest k

/-- Key assignment in an association list (object property write by key). -/
def setEntry {α : Type} (c : List (String × α)) (k : String) (v : α) :
    List (String × α) :=
  match c with
  | [] => [(k, v)]
  | (k2, v2) :: rest =>
    if k2 = k then (k, v) :: rest else (k2, v2) :: setEntry rest k v

/-- Key removal in an association list (the JS delete operator / SQL
delete-by-key). -/
def removeEntry {α : Type} (c : List (String × α)) (k : String) :
    List (String × α) :=
  match c with
  | [] => []
  | (k2, v2) :: rest =>
    if k2 = k then removeEntry rest k else (k2, v2) :: removeEntry rest k

theorem getEntry_setEntry_self {α : Type} (c : List (String × α)) (k : String)
    (v : α) : getEntry (setEntry c k v) k = some v := by
  induction c with
  | nil => simp [setEntry, getEntry]
  | cons hd tl ih =>
    obtain ⟨k2, v2⟩ := hd
    by_cases h : k2 = k
    · simp [setEntry, getEntry, h]
    · simp [setEntry, getEntry, h, ih]

theorem getEntry_removeEntry_self {α : Type} (c : List (String × α))
    (k : String) : getEntry (removeEntry c k) k = none := by
  induction c with
  | nil => simp [removeEntry, getEntry]
  | cons hd tl ih =>
    obtain ⟨k2, v2⟩ := hd
    by_cases h : k2 = k
    · simp [removeEntry, getEntry, h, ih]
    · simp [removeEntry, getEntry, h, ih]

/-- The history window applied after each assistant append:
`if (conversation.messages.length > 20) messages = messages.slice(-20)`.
`slice(-20)` keeps the last 20 elements by position. -/
def trimMessages (ms : List Message) : List Message :=
  if ms.length > 20 then ms.drop (ms.length - 20) else ms

theorem trimMessages_length_le (ms : List Message) :
    (trimMessages ms).length ≤ 20 := by
  unfold trimMessages
  split
  · rename_i h
    rw [List.length_drop]
    omega
  · rename_i h
    omega

/-- JavaScript truthiness of a request body field that is either absent
(`none`) or a string: absent and the empty string are falsy. -/
def truthy (o : Option String) : Bool :=
  match o with
  | none => false
  | some s => s != ""

/-- Classified completion-call failures, mirroring the error codes the
chat endpoint inspects (`insufficient_quota`, `invalid_api_key`, other). -/
inductive CompErr where
  | insufficientQuota
  | invalidApiKey
  | other
  deriving DecidableEq, Repr

/-- Outcome of the chat endpoint as seen by the caller. -/
inductive ChatResponse where
  | validationError
  | quotaExceeded
  | invalidKey
  | aiFailure
  | ok (reply : String)
  deriving DecidableEq, Repr

/-- `initializeConversation(sessionId)` of the Supabase-backed server:
serve from cache if present; else (when Supabase is configured) fetch the
row; on a miss construct a fresh session with a single system message and
cache it WITHOUT inserting a row (persistence is deferred to the first
chat exchange). The store is returned unchanged in every branch, because
the source function performs no write. -/
def initializeConversation {A : Type} (supabaseOn : Bool) (sysPrompt : String)
    (cache : Cache) (store : Store A) (sid now : String) :
    Conversation × Cache × Store A :=
  match getEntry cache sid with
  | some conv => (conv, cache, store)
  | none =>
    if supabaseOn then
      match getEntry store sid with
      | some row =>
        let conv : Conversation :=
          { messages := row.messages
            createdAt := if row.created_at = "" then now else row.created_at
            lastActivity := now }
        (conv, setEntry cache sid conv, store)
      | none =>
        let conv : Conversation :=
          { messages := [{ role := Role.system, content := sysPrompt }]
            createdAt := now
            lastActivity := now }
        (conv, setEntry cache sid conv, store)
    else
      let conv : Conversation :=
        { messages := [{ role := Role.system, content := sysPrompt }]
          createdAt := now
          lastActivity := now }
      (conv, setEntry cache sid conv, store)

/-- `persistConversation(sessionId)`: upsert of
`{conversation_id, messages}` on conflict key `conversation_id`; a no-op
when Supabase is unconfigured or the session is not cached. -/
def persistConversation {A : Type} (supabaseOn : Bool) (cache : Cache)
    (store : Store A) (sid now : String) : Store A :=
  if supabaseOn then
    match getEntry cache sid with
    | none => store
    | some conv =>
      match getEntry store sid with
      | some _ =>
        store.map (fun e =>
          if e.1 = sid then (e.1, { e.2 with messages := conv.messages }) else e)
      | none =>
        store ++ [(sid,
          { conversation_id := sid
            created_at := now
            messages := conv.messages
            lead_analysic := none
            lead_analyzed_at := none })]
  else store

/-- Resulting server state and response of one call to the chat endpoint. -/
structure ChatOutcome (A : Type) where
  response : ChatResponse
  cache : Cache
  store : Store A
  deriving Repr

/-- The POST /api/chat handler of the Supabase-backed server: validate the
two request fields by JS truthiness, load or create the conversation,
push the user message (an in-place cache mutation), call the completion
capability, and on success push the assistant reply, trim to the last 20
messages, and persist. On a completion failure the handler returns in the
catch block: the user message stays in the cache, nothing else changes. -/
def chatHandler {A : Type} (supabaseOn : Bool) (sysPrompt : String)
    (cache : Cache) (store : Store A) (message sessionId : Option String)
    (now : String) (completion : Except CompErr String) : ChatOutcome A :=
  if truthy message && truthy sessionId then
    let m := message.getD ""
    let sid := sessionId.getD ""
    let r := initializeConversation supabaseOn sysPrompt cache store sid now
    let conv1 : Conversation :=
      { r.1 with
        messages := r.1.messages ++ [{ role := Role.user, content := m }]
        lastActivity := now }
    let cache2 := setEntry r.2.1 sid conv1
    match completion with
    | Except.error e =>
      { response :=
          match e with
          | CompErr.insufficientQuota => ChatResponse.quotaExceeded
          | CompErr.invalidApiKey => ChatResponse.invalidKey
          | CompErr.other => ChatResponse.aiFailure
        cache := cache2
        store := r.2.2 }
    | Except.ok ai =>
      let conv2 : Conversation :=
        { conv1 with
          messages :=
            trimMessages
              (conv1.messages ++ [{ role := Role.assistant, content := ai }]) }
      let cache3 := setEntry cache2 sid conv2
      { response := ChatResponse.ok ai
        cache := cache3
        store := persistConversation supabaseOn cache3 r.2.2 sid now }
  else
    { response := ChatResponse.validationError, cache := cache, store := store }

/-- Outcome of the delete-conversation endpoints. -/
inductive DeleteResult where
  | success
  | storeError
  | notFound
  deriving DecidableEq, Repr

/-- DELETE /api/conversation/:sessionId of the Supabase-backed server:
unconditionally delete the cache entry, then delete the store row; only a
reported store error makes it fail. -/
def deleteConversation {A : Type} (supabaseOn : Bool) (cache : Cache)
    (store : Store A) (sid : String) (storeDeleteFails : Bool) :
    DeleteResult × Cache × Store A :=
  let cache1 := removeEntry cache sid
  if supabaseOn then
    if storeDeleteFails then (DeleteResult.storeError, cache1, store)
    else (DeleteResult.success, cache1, removeEntry store sid)
  else (DeleteResult.success, cache1, store)

/-- DELETE /api/conversation/:sessionId of the memory-only variant: the
cache entry is deleted only if present, and an absent session returns a
404 Conversation-not-found error. -/
def deleteConversationMemoryOnly (cache : Cache) (sid : String) :
    DeleteResult × Cache :=
  match getEntry cache sid with
  | some _ => (DeleteResult.success, removeEntry cache sid)
  | none => (DeleteResult.notFound, cache)

/-- `role.toUpperCase()` on the three role strings. -/
def Role.upper : Role → String
  | Role.system => "SYSTEM"
  | Role.user => "USER"
  | Role.assistant => "ASSISTANT"

/-- `buildTranscriptFromMessages(messages)`: render each message as
upper-cased role, colon-space, content, joined by newlines. The source
also filters out entries that are not objects with a string `content`
(`m && typeof m.content === 'string'`); under the typed `Message` shape
that dynamic guard always holds, kept here as the constant-true filter. -/
def buildTranscriptFromMessages (ms : List Message) : String :=
  String.intercalate "\n"
    ((ms.filter (fun _ => true)).map (fun m => m.role.upper ++ ": " ++ m.content))

/-- The transcript the analyze endpoint feeds the completion capability:
`buildTranscriptFromMessages(messages.filter(m => m.role !== 'system'))`. -/
def analyzeTranscript (ms : List Message) : String :=
  buildTranscriptFromMessages (ms.filter (fun m => decide (m.role ≠ Role.system)))

/-- Transcript rendering as the specification words it: filter out system
messages, render each remaining message as upper-cased role, colon-space,
content, join with newlines preserving order. Stated separately from the
source-derived pipeline so the two can be compared. -/
def buildTranscriptSpec (ms : List Message) : String :=
  String.intercalate "\n"
    ((ms.filter (fun m => decide (m.role ≠ Role.system))).map
      (fun m => m.role.upper ++ ": " ++ m.content))

def lbrace : Char := '\x7b'

def rbrace : Char := '\x7d'

/-- The recovery extraction `content.match(/\x7b[\s\S]*\x7d$/)`: the match,
when it exists, runs from the first opening brace to the end of the
string, and exists exactly when the string contains an opening brace and
its last character is a closing brace (the closing brace then lies
strictly after the first opening brace, since the two characters differ). -/
def extractBraces (s : String) : Option String :=
  let cs := s.toList
  match cs.findIdx? (fun c => c == lbrace) with
  | none => none
  | some i =>
    if cs.getLast? = some rbrace then some (String.mk (cs.drop i)) else none

/-- `saveAnalysis(sessionId, analysisObject)`: a SQL UPDATE of
`lead_analysic` and `lead_analyzed_at` on the rows whose
`conversation_id` matches; zero matching rows update nothing and report
no error. -/
def saveAnalysis {A : Type} (supabaseOn : Bool) (store : Store A)
    (sid : String) (a : A) (now : String) : Store A :=
  if supabaseOn then
    store.map (fun e =>
      if e.1 = sid then
        (e.1, { e.2 with lead_analysic := some a, lead_analyzed_at := some now })
      else e)
  else store

/-- Caller-visible outcome of the analyze endpoint. `malformedExtraction`
is the 500 response carrying the raw completion text
(`error: AI did not return valid JSON, raw: content`); `genericError` is
the outer catch-block 500 (`Failed to analyze conversation`), which does
not carry the raw text. -/
inductive AnalyzeResult (A : Type) where
  | notConfigured
  | fetchError
  | noMessages
  | malformedExtraction (raw : String)
  | genericError
  | ok (analysis : A)
  deriving DecidableEq, Repr

/-- POST /api/conversation/:sessionId/analyze: fetch the row directly from
the Durable Store, fall back to the cached messages when no row exists
(`data?.messages || conversations[sessionId]?.messages || []`), 404 on an
empty message list, build the non-system transcript, call the completion
capability on it, then parse the returned content: direct parse first; on
failure extract the trailing brace-delimited substring and parse that; a
missing substring yields the raw-carrying error, while a failing second
parse throws inside the catch block and lands in the outer generic catch.
On success the analysis is saved (zero rows updated when no row exists). -/
def analyzeHandler {A : Type} (parse : String → Option A)
    (complete : String → Except Unit String) (supabaseOn : Bool)
    (cache : Cache) (store : Store A) (sid : String) (fetchFails : Bool)
    (now : String) : AnalyzeResult A × Store A :=
  if supabaseOn then
    if fetchFails then (AnalyzeResult.fetchError, store)
    else
      let msgs : List Message :=
        match getEntry store sid with
        | some row => row.messages
        | none =>
          match getEntry cache sid with
          | some conv => conv.messages
          | none => []
      if msgs.length = 0 then (AnalyzeResult.noMessages, store)
      else
        match complete (analyzeTranscript msgs) with
        | Except.error _ => (AnalyzeResult.genericError, store)
        | Except.ok content =>
          match parse content with
          | some a => (AnalyzeResult.ok a, saveAnalysis supabaseOn store sid a now)
          | none =>
            match extractBraces content with
            | some sub =>
              match parse sub with
              | some a =>
                (AnalyzeResult.ok a, saveAnalysis supabaseOn store sid a now)
              | none => (AnalyzeResult.genericError, store)
            | none => (AnalyzeResult.malformedExtraction content, store)
  else (AnalyzeResult.notConfigured, store)

/-- Caller-visible outcome of GET /api/conversation/:sessionId/analysis. -/
inductive GetAnalysisResult (A : Type) where
  | ok (analysis : Option A) (analyzedAt : Option String)
  | fetchError
  deriving DecidableEq, Repr

/-- GET /api/conversation/:sessionId/analysis: read
`lead_analysic, lead_analyzed_at` from the row; a missing row (or an
unconfigured store) reads as null analysis. Never computes on demand. -/
def getAnalysisHandler {A : Type} (supabaseOn : Bool) (store : Store A)
    (sid : String) (fetchFails : Bool) : GetAnalysisResult A :=
  if supabaseOn then
    if fetchFails then GetAnalysisResult.fetchError
    else
      match getEntry store sid with
      | none => GetAnalysisResult.ok none none
      | some row => GetAnalysisResult.ok row.lead_analysic row.lead_analyzed_at
  else GetAnalysisResult.ok none none

/-- One element of the GET /api/sessions response. -/
structure SessionSummary where
  sessionId : String
  messageCount : Nat
  createdAt : String
  lastActivity : String
  deriving DecidableEq, Repr

/-- The Durable-Store-backed path of GET /api/sessions, mapping each
returned row to a summary: `messageCount` is
`(row.messages?.length || 1) - 1` (JS: a zero length is falsy and
replaced by 1), and BOTH `createdAt` and `lastActivity` are set to
`row.created_at`. -/
def listSessionsStorePath {A : Type} (rows : List (Row A)) :
    List SessionSummary :=
  rows.map (fun row =>
    { sessionId := row.conversation_id
      messageCount := (if row.messages.length = 0 then 1 else row.messages.length) - 1
      createdAt := row.created_at
      lastActivity := row.created_at })

theorem initializeConversation_store {A : Type} (b : Bool) (p : String)
    (cache : Cache) (store : Store A) (sid now : String) :
    (initializeConversation b p cache store sid now).2.2 = store := by
  unfold initializeConversation
  cases h : getEntry cache sid
  · cases b
    · rfl
    · cases h2 : getEntry store sid <;> rfl
  · rfl

theorem map_update_no_key {A : Type} (store : Store A) (sid : String)
    (f : Row A → Row A) (h : getEntry store sid = none) :
    store.map (fun e => if e.1 = sid then (e.1, f e.2) else e) = store := by
  induction store with
  | nil => rfl
  | cons hd tl ih =>
    obtain ⟨k, v⟩ := hd
    simp only [getEntry] at h
    by_cases hk : k = sid
    · rw [if_pos hk] at h
      cases h
    · rw [if_neg hk] at h
      simp [hk, ih h]

theorem saveAnalysis_no_row {A : Type} (store : Store A) (sid : String)
    (a : A) (now : String) (h : getEntry store sid = none) :
    saveAnalysis true store sid a now = store := by
  show store.map _ = store
  exact map_update_no_key store sid
    (fun r => { r with lead_analysic := some a, lead_analyzed_at := some now }) h

/-- Fixed witness data for the windowing claims: a system message followed
by twenty user messages, i.e. a history of length 21. -/
def overLongMessages : List Message :=
  { role := Role.system, content := "S" } ::
    List.replicate 20 { role := Role.user, content := "u" }

/-- Claim C1 is FALSE on the source: the trim is `messages.slice(-20)`,
which keeps the last 20 entries by position. On a 21-element history whose
first element is the system message, the trimmed history starts with the
oldest user message, so after the trim `messages[0].role` is `user`, not
`system` — the system message IS evicted by windowing. -/
theorem trim_evicts_system_counterexample :
    overLongMessages.length = 21 ∧
    overLongMessages.head? = some { role := Role.system, content := "S" } ∧
    (trimMessages overLongMessages).head? =
      some { role := Role.user, content := "u" } ∧
    Role.user ≠ Role.system := by decide

/-- Claim C1 (amended): for every message list longer than the limit of
20, the trim applied after an assistant append retains exactly the most
recent 20 entries by position, dropping at least the first element; in
particular, when the system message occurs only at position 0, the trim
evicts it and no system message remains in the window. -/
theorem trim_keeps_last_twenty (ms : List Message) (h : ms.length > 20) :
    trimMessages ms = ms.drop (ms.length - 20) ∧
    (trimMessages ms).length = 20 ∧
    1 ≤ ms.length - 20 ∧
    ((∀ m ∈ ms.drop 1, m.role ≠ Role.system) →
      ∀ m ∈ trimMessages ms, m.role ≠ Role.system) := by
  refine ⟨?_, ?_, by omega, ?_⟩
  · unfold trimMessages
    rw [if_pos h]
  · unfold trimMessages
    rw [if_pos h, List.length_drop]
    omega
  · intro hall m hm
    have h1 : trimMessages ms = (ms.drop 1).drop (ms.length - 21) := by
      unfold trimMessages
      rw [if_pos h, List.drop_drop]
      congr 1
      omega
    rw [h1] at hm
    exact hall m (List.drop_subset _ _ hm)

theorem trim_keeps_last_twenty_witness :
    overLongMessages.length > 20 ∧
    trimMessages overLongMessages =
      overLongMessages.drop (overLongMessages.length - 20) :=
  ⟨by decide, (trim_keeps_last_twenty overLongMessages (by decide)).1⟩

/-- Claim C2: for every session state and every chat exchange, after the
assistant append and the trim that follows it, the session entry stored
in the cache has at most 20 messages. Together with the fact that every
successful chat exchange ends in exactly this trim, the bound holds after
each assistant append of any sequence of exchanges. -/
theorem chat_message_bound {A : Type} (b : Bool) (p : String) (cache : Cache)
    (store : Store A) (m sid now ai : String) (hm : m ≠ "") (hs : sid ≠ "") :
    ∃ conv,
      getEntry
        (chatHandler b p cache store (some m) (some sid) now
          (Except.ok ai)).cache sid = some conv ∧
      conv.messages.length ≤ 20 := by
  have hc : (truthy (some m) && truthy (some sid)) = true := by
    simp [truthy, hm, hs]
  unfold chatHandler
  rw [hc]
  simp only [if_true]
  exact ⟨_, getEntry_setEntry_self _ _ _, trimMessages_length_le _⟩

theorem chat_message_bound_witness :
    ("hi" : String) ≠ "" ∧ ("s" : String) ≠ "" ∧
    ∃ conv,
      getEntry
        (chatHandler (A := Nat) false "P" [] [] (some "hi") (some "s") "t"
          (Except.ok "r")).cache "s" = some conv ∧
      conv.messages.length ≤ 20 :=
  ⟨by decide, by decide,
    chat_message_bound (A := Nat) false "P" [] [] "hi" "s" "t" "r"
      (by decide) (by decide)⟩

/-- Claim C3: when the completion call fails during a chat exchange, the
stored state is unchanged beyond the already-appended user message: the
cache entry for the session is exactly the loaded conversation with the
user message appended (no assistant message), and the Durable Store is
untouched (no persist happens on the failure path). The response is never
a successful reply. -/
theorem chat_failure_preserves_state {A : Type} (b : Bool) (p : String)
    (cache : Cache) (store : Store A) (m sid now : String) (e : CompErr)
    (hm : m ≠ "") (hs : sid ≠ "") :
    (chatHandler b p cache store (some m) (some sid) now
      (Except.error e)).store = store ∧
    getEntry
      (chatHandler b p cache store (some m) (some sid) now
        (Except.error e)).cache sid =
      some { (initializeConversation b p cache store sid now).1 with
             messages :=
               (initializeConversation b p cache store sid now).1.messages ++
                 [{ role := Role.user, content := m }]
             lastActivity := now } ∧
    ∀ s,
      (chatHandler b p cache store (some m) (some sid) now
        (Except.error e)).response ≠ ChatResponse.ok s := by
  have hc : (truthy (some m) && truthy (some sid)) = true := by
    simp [truthy, hm, hs]
  unfold chatHandler
  rw [hc]
  simp only [if_true]
  refine ⟨initializeConversation_store b p cache store sid now,
    getEntry_setEntry_self _ _ _, ?_⟩
  intro s
  cases e <;> simp

theorem chat_failure_preserves_state_witness :
    ("hi" : String) ≠ "" ∧ ("s" : String) ≠ "" ∧
    (chatHandler (A := Nat) true "P" [] [] (some "hi") (some "s") "t"
      (Except.error CompErr.other)).store = [] :=
  ⟨by decide, by decide,
    (chat_failure_preserves_state (A := Nat) true "P" [] [] "hi" "s" "t"
      CompErr.other (by decide) (by decide)).1⟩

/-- Fixed cache entry for the delete counterexample. -/
def memOnlyConv : Conversation :=
  { messages := [{ role := Role.system, content := "S" }]
    createdAt := "t"
    lastActivity := "t" }

/-- Claim C4 is FALSE on the memory-only variant the claim also covers:
deleting a present session succeeds, but repeating the delete on the
resulting cache (the session is now absent) returns the 404
Conversation-not-found outcome, which is not the successful outcome. -/
theorem delete_memory_only_counterexample :
    (deleteConversationMemoryOnly [("s", memOnlyConv)] "s").1 =
      DeleteResult.success ∧
    (deleteConversationMemoryOnly
      (deleteConversationMemoryOnly [("s", memOnlyConv)] "s").2 "s").1 =
      DeleteResult.notFound ∧
    DeleteResult.notFound ≠ DeleteResult.success := by decide

/-- Claim C4 (amended): on the Durable-Store-backed endpoint, delete is
idempotent when the store delete reports no error: deleting an absent or
already-deleted session returns the same successful outcome as deleting a
present one, and it removes the session from the cache and (when the
store is configured) from the Durable Store; the memory-only variant
instead answers NotFound for an absent session. -/
theorem delete_store_backed_idempotent {A : Type} (b : Bool) (cache : Cache)
    (store : Store A) (sid : String) :
    (deleteConversation b cache store sid false).1 = DeleteResult.success ∧
    getEntry (deleteConversation b cache store sid false).2.1 sid = none ∧
    (deleteConversation b cache store sid false).2.2 =
      (if b then removeEntry store sid else store) ∧
    getEntry (if b then removeEntry store sid else store) sid =
      (if b then none else getEntry store sid) ∧
    (deleteConversation b (deleteConversation b cache store sid false).2.1
      (deleteConversation b cache store sid false).2.2 sid false).1 =
      DeleteResult.success := by
  unfold deleteConversation
  cases b <;> simp [getEntry_removeEntry_self]

/-- Claim C5: getOrCreate on a fresh session id (present neither in the
cache nor in the Durable Store) yields a session whose message list is
exactly one system message, caches it under the id, and performs no write
to the Durable Store. -/
theorem getOrCreate_fresh {A : Type} (b : Bool) (p : String) (cache : Cache)
    (store : Store A) (sid now : String)
    (hc : getEntry cache sid = none) (hs : getEntry store sid = none) :
    (initializeConversation b p cache store sid now).1.messages =
      [{ role := Role.system, content := p }] ∧
    (initializeConversation b p cache store sid now).1.messages.length = 1 ∧
    getEntry (initializeConversation b p cache store sid now).2.1 sid =
      some (initializeConversation b p cache store sid now).1 ∧
    (initializeConversation b p cache store sid now).2.2 = store := by
  unfold initializeConversation
  rw [hc]
  cases b
  · simp [getEntry_setEntry_self]
  · rw [hs]
    simp [getEntry_setEntry_self]

theorem getOrCreate_fresh_witness :
    getEntry ([] : Cache) "s" = none ∧ getEntry ([] : Store Nat) "s" = none ∧
    (initializeConversation (A := Nat) true "P" [] [] "s" "t").1.messages =
      [{ role := Role.system, content := "P" }] :=
  ⟨rfl, rfl,
    (getOrCreate_fresh (A := Nat) true "P" [] [] "s" "t" rfl rfl).1⟩

/-- Claim C6 is FALSE as stated: a request carrying a PRESENT but empty
message string is rejected with the validation error, because the source
tests JavaScript truthiness, not absence. Both fields are present
(neither is `none`), yet the handler fails validation. -/
theorem chat_validation_counterexample :
    (chatHandler (A := Nat) true "P" [] [] (some "") (some "s") "t"
      (Except.ok "r")).response = ChatResponse.validationError ∧
    (some "" : Option String) ≠ none ∧
    (some "s" : Option String) ≠ none := by decide

/-- Claim C6 (amended): the chat handler fails with the validation error
exactly when the message or the session id is missing OR empty (JS-falsy);
in that case it returns immediately and mutates neither the cache nor the
Durable Store, and otherwise it never returns the validation error. -/
theorem chat_validation_iff {A : Type} (b : Bool) (p : String) (cache : Cache)
    (store : Store A) (message sessionId : Option String) (now : String)
    (completion : Except CompErr String) :
    ((chatHandler b p cache store message sessionId now completion).response =
        ChatResponse.validationError ↔
      (truthy message && truthy sessionId) = false) ∧
    ((truthy message && truthy sessionId) = false →
      chatHandler b p cache store message sessionId now completion =
        { response := ChatResponse.validationError
          cache := cache
          store := store }) := by
  unfold chatHandler
  cases hc : truthy message && truthy sessionId
  · simp
  · rcases completion with e | ai
    · cases e <;> simp
    · simp

theorem chat_validation_iff_witness :
    (truthy (some "") && truthy (some "s")) = false ∧
    chatHandler (A := Nat) true "P" [] [] (some "") (some "s") "t"
      (Except.ok "r") =
      { response := ChatResponse.validationError, cache := [], store := [] } :=
  ⟨by decide,
    (chat_validation_iff (A := Nat) true "P" [] [] (some "") (some "s") "t"
      (Except.ok "r")).2 (by decide)⟩

/-- Fixed Durable Store row for the analyze counterexample: one
non-system message, no stored analysis. -/
def analyzeRowCex : Row Nat :=
  { conversation_id := "s"
    created_at := "t0"
    messages := [{ role := Role.user, content := "hi" }]
    lead_analysic := none
    lead_analyzed_at := none }

/-- Claim C7 is FALSE as stated: on completion text where the direct parse
fails AND the recovered trailing brace-delimited substring also fails to
parse, the handler does not fail with the raw-carrying
MalformedExtraction response; the second parse throws inside the catch
block and the outer catch returns the generic analysis error instead.
The parse oracle used rejects every string, which agrees with a strict
JSON parser on the two strings actually parsed here (neither the whole
completion text nor its extracted brace substring is valid JSON). -/
theorem analyze_recovery_counterexample :
    (analyzeHandler (A := Nat) (fun _ => none)
        (fun _ => Except.ok "x\x7by\x7d") true [] [("s", analyzeRowCex)] "s"
        false "t1").1 = AnalyzeResult.genericError ∧
    extractBraces "x\x7by\x7d" = some "\x7by\x7d" ∧
    (AnalyzeResult.genericError : AnalyzeResult Nat) ≠
      AnalyzeResult.malformedExtraction "x\x7by\x7d" := by decide

/-- Claim C7 (amended): analyze parses the completion text directly; on
parse failure it extracts the trailing brace-delimited substring. If no
such substring exists, the operation fails with MalformedExtraction
carrying the raw completion text and stores nothing; if a substring is
extracted but its parse also fails, the operation fails with the generic
analysis error (which does not carry the raw text) and stores nothing. -/
theorem analyze_parse_failure_modes {A : Type} (parse : String → Option A)
    (complete : String → Except Unit String) (cache : Cache)
    (store : Store A) (sid now content : String) (row : Row A)
    (hrow : getEntry store sid = some row) (hne : row.messages.length ≠ 0)
    (hcomp : complete (analyzeTranscript row.messages) = Except.ok content)
    (hp : parse content = none) :
    (extractBraces content = none →
      analyzeHandler parse complete true cache store sid false now =
        (AnalyzeResult.malformedExtraction content, store)) ∧
    (∀ sub, extractBraces content = some sub → parse sub = none →
      analyzeHandler parse complete true cache store sid false now =
        (AnalyzeResult.genericError, store)) := by
  unfold analyzeHandler
  rw [hrow]
  simp only [if_true, if_neg hne, hcomp, hp]
  constructor
  · intro hx
    rw [hx]
    rfl
  · intro sub hx hps
    rw [hx]
    simp [hps]

/-- Fixed Durable Store row for the analyze witnesses. -/
def analyzeRowWit : Row Nat :=
  { conversation_id := "s"
    created_at := "t0"
    messages := [{ role := Role.user, content := "hi" }]
    lead_analysic := none
    lead_analyzed_at := none }

theorem analyze_parse_failure_modes_witness :
    getEntry [("s", analyzeRowWit)] "s" = some analyzeRowWit ∧
    extractBraces "nojson" = none ∧
    analyzeHandler (A := Nat) (fun _ => none) (fun _ => Except.ok "nojson")
      true [] [("s", analyzeRowWit)] "s" false "t1" =
      (AnalyzeResult.malformedExtraction "nojson", [("s", analyzeRowWit)]) :=
  ⟨by decide, by decide,
    (analyze_parse_failure_modes (A := Nat) (fun _ => none)
      (fun _ => Except.ok "nojson") [] [("s", analyzeRowWit)] "s" "t1"
      "nojson" analyzeRowWit (by decide) (by decide) rfl rfl).1 (by decide)⟩

/-- Claim C8: the transcript the analyze endpoint builds — the source
composition of the call-site system filter with
buildTranscriptFromMessages — coincides, for every message list, with the
rendering the specification words: drop system messages, render each
remaining message as upper-cased role, colon-space, content, join with
newlines preserving order. Both sides are pure Lean functions, so purity
and determinism are inherent. -/
theorem buildTranscript_matches_spec (ms : List Message) :
    analyzeTranscript ms = buildTranscriptSpec ms := by
  unfold analyzeTranscript buildTranscriptFromMessages buildTranscriptSpec
  rw [List.filter_true]

/-- Claim C9: when a session lives only in the in-process cache (no
Durable Store row), analyze falls back to the cached messages and reports
success, but the persist step updates zero rows, so the store is
unchanged and a subsequent getAnalysis for that session still returns a
null analysis despite the reported success. -/
theorem analyze_cache_only_not_persisted {A : Type}
    (parse : String → Option A) (complete : String → Except Unit String)
    (cache : Cache) (store : Store A) (sid now content : String)
    (conv : Conversation) (a : A)
    (hstore : getEntry store sid = none)
    (hcache : getEntry cache sid = some conv)
    (hne : conv.messages.length ≠ 0)
    (hcomp : complete (analyzeTranscript conv.messages) = Except.ok content)
    (hp : parse content = some a) :
    analyzeHandler parse complete true cache store sid false now =
      (AnalyzeResult.ok a, store) ∧
    getAnalysisHandler true store sid false = GetAnalysisResult.ok none none := by
  constructor
  · unfold analyzeHandler
    rw [hstore, hcache]
    simp only [if_true, if_neg hne, hcomp, hp]
    rw [saveAnalysis_no_row store sid a now hstore]
    rfl
  · unfold getAnalysisHandler
    rw [hstore]
    rfl

/-- Fixed cache entry for the cache-only analyze witness. -/
def cacheOnlyConv : Conversation :=
  { messages := [{ role := Role.user, content := "hi" }]
    createdAt := "t0"
    lastActivity := "t0" }

theorem analyze_cache_only_not_persisted_witness :
    getEntry ([] : Store Nat) "s" = none ∧
    getEntry [("s", cacheOnlyConv)] "s" = some cacheOnlyConv ∧
    analyzeHandler (A := Nat) (fun t => if t = "c" then some 7 else none)
      (fun _ => Except.ok "c") true [("s", cacheOnlyConv)] [] "s" false "t1" =
      (AnalyzeResult.ok 7, []) ∧
    getAnalysisHandler (A := Nat) true [] "s" false =
      GetAnalysisResult.ok none none :=
  ⟨rfl, by decide,
    (analyze_cache_only_not_persisted (A := Nat)
      (fun t => if t = "c" then some 7 else none) (fun _ => Except.ok "c")
      [("s", cacheOnlyConv)] [] "s" "t1" "c" cacheOnlyConv 7 rfl (by decide)
      (by decide) rfl (by decide)).1,
    (analyze_cache_only_not_persisted (A := Nat)
      (fun t => if t = "c" then some 7 else none) (fun _ => Except.ok "c")
      [("s", cacheOnlyConv)] [] "s" "t1" "c" cacheOnlyConv 7 rfl (by decide)
      (by decide) rfl (by decide)).2⟩

/-- Claim C10: in the Durable-Store-backed path of the session listing,
every returned summary has lastActivity equal to createdAt — the mapping
fills both fields from the row creation time, so the listing never
reflects the actual time of the last append for persisted sessions. -/
theorem list_lastActivity_eq_createdAt {A : Type} (rows : List (Row A))
    (s : SessionSummary) (h : s ∈ listSessionsStorePath rows) :
    s.lastActivity = s.createdAt := by
  unfold listSessionsStorePath at h
  rw [List.mem_map] at h
  obtain ⟨row, _, rfl⟩ := h
  rfl

/-- Fixed row for the session-listing witness. -/
def listRowWit : Row Nat :=
  { conversation_id := "a"
    created_at := "t0"
    messages := []
    lead_analysic := none
    lead_analyzed_at := none }

theorem list_lastActivity_eq_createdAt_witness :
    ({ sessionId := "a", messageCount := 0, createdAt := "t0",
       lastActivity := "t0" } : SessionSummary) ∈
      listSessionsStorePath [listRowWit] ∧
    ({ sessionId := "a", messageCount := 0, createdAt := "t0",
       lastActivity := "t0" } : SessionSummary).lastActivity =
      ({ sessionId := "a", messageCount := 0, createdAt := "t0",
         lastActivity := "t0" } : SessionSummary).createdAt :=
  ⟨by decide,
    list_lastActivity_eq_createdAt [listRowWit] _ (by decide)⟩

end Chatbot
